import Mathlib

/-!
Shallow embedding of the air-quality extraction backend
(`src/air_quality_client.py`, `src/mock_data_generator.py`,
`src/routes/air_quality.py`, `src/schemas.py`).

Conventions of the embedding:
* Python floats become `ℚ`; timestamps (`datetime` values) become `ℚ`
  (an abstract instant on a linear time line, in seconds).  Keying on
  `observed_at.isoformat()` is keyed on the timestamp itself, since
  `isoformat` is injective on datetimes.
* Network calls are modelled by passing the fetched payloads (or the
  already-normalized adapter outputs) as explicit arguments.
* A `try/except` that skips one record becomes `Option`: `none` is the
  skipped record.
* Random draws of the mock generator become explicit fields of a
  `MockChoice` record, one per loop iteration.
-/

/-- `PollutantType` enum of `schemas.py` (values "o3" … "hcho"). -/
inductive PollutantType where
  | o3 | no2 | pm25 | pm10 | so2 | co | hcho
  deriving DecidableEq, Repr

/-- `AQICategory` enum of `schemas.py`. -/
inductive AQICategory where
  | good | moderate | unhealthySensitive | unhealthy | veryUnhealthy | hazardous
  deriving DecidableEq, Repr

/-- `DataSource` enum of `schemas.py` (values "airnow", "openaq", "tempo"). -/
inductive DataSource where
  | airnow | openaq | tempo
  deriving DecidableEq, Repr

/-- The `.value` string of a `DataSource` member. -/
def DataSource.value : DataSource → String
  | .airnow => "airnow"
  | .openaq => "openaq"
  | .tempo => "tempo"

/-- The `.value` string of a `PollutantType` member. -/
def PollutantType.value : PollutantType → String
  | .o3 => "o3"
  | .no2 => "no2"
  | .pm25 => "pm25"
  | .pm10 => "pm10"
  | .so2 => "so2"
  | .co => "co"
  | .hcho => "hcho"

/-- `Coordinates` pydantic model: `latitude ∈ [-90, 90]`, `longitude ∈ [-180, 180]`. -/
structure Coordinates where
  latitude : ℚ
  longitude : ℚ
  deriving DecidableEq, Repr

/-- Pydantic validation of `Coordinates(...)`: out-of-range values raise,
which the embedding renders as `none`. -/
def mkCoordinates (lat lon : ℚ) : Option Coordinates :=
  if -90 ≤ lat ∧ lat ≤ 90 ∧ -180 ≤ lon ∧ lon ≤ 180 then
    some ⟨lat, lon⟩
  else
    none

/-- `AirQualityMeasurement` pydantic model of `schemas.py` (the spec's
canonical `Reading`).  `last_updated` is the observation timestamp
(`observed_at` in the spec). -/
structure AirQualityMeasurement where
  parameter : PollutantType
  value : ℚ
  unit : String
  last_updated : ℚ
  aqi : Option ℤ := none
  category : Option AQICategory := none
  coordinates : Coordinates
  location_name : Option String := none
  city : Option String := none
  state : Option String := none
  country : String := "US"
  source : DataSource
  site_id : Option String := none
  deriving DecidableEq, Repr

/-- Python `str.lower()` (ASCII, the case relevant to this data). -/
def py_lower (s : String) : String :=
  ⟨s.data.map Char.toLower⟩

/-- Python `str.upper()` (ASCII). -/
def py_upper (s : String) : String :=
  ⟨s.data.map Char.toUpper⟩

/-- Python `str.strip()`: drop whitespace from both ends. -/
def py_strip (s : String) : String :=
  ⟨((s.data.dropWhile (·.isWhitespace)).reverse.dropWhile (·.isWhitespace)).reverse⟩

/-- Python `needle in hay` on strings: substring containment. -/
def py_in (needle hay : String) : Bool :=
  hay.data.tails.any (needle.data.isPrefixOf ·)

/-- `AirQualityAPIClient._convert_pollutant_name`: lowercase, strip, then look
up the synonym table.  (The `source` argument of the Python function is unused
by its body and omitted.) -/
def convert_pollutant_name (parameter : String) : Option PollutantType :=
  let p := py_strip (py_lower parameter)
  if p = "ozone" then some .o3
  else if p = "o3" then some .o3
  else if p = "no2" then some .no2
  else if p = "nitrogen dioxide" then some .no2
  else if p = "pm2.5" then some .pm25
  else if p = "pm25" then some .pm25
  else if p = "pm10" then some .pm10
  else if p = "co" then some .co
  else if p = "carbon monoxide" then some .co
  else if p = "so2" then some .so2
  else if p = "sulfur dioxide" then some .so2
  else if p = "hcho" then some .hcho
  else if p = "formaldehyde" then some .hcho
  else none

/-- `AirQualityAPIClient._determine_aqi_category`. -/
def determine_aqi_category (aqi : ℤ) : AQICategory :=
  if aqi ≤ 50 then .good
  else if aqi ≤ 100 then .moderate
  else if aqi ≤ 150 then .unhealthySensitive
  else if aqi ≤ 200 then .unhealthy
  else if aqi ≤ 300 then .veryUnhealthy
  else .hazardous

/-- Result of building the timestamp of one AirNow observation from its
`DateObserved`/`HourObserved` fields: the date string may be empty
(Python then uses `datetime.utcnow()`), may fail `strptime` (the
per-observation `except` skips the record), or parses to an instant. -/
inductive AirNowDate where
  | emptyStr
  | malformed
  | parsed (t : ℚ)
  deriving DecidableEq, Repr

/-- One raw JSON observation returned by the AirNow API, with the fields
read by `get_airnow_current_observations`.  `none` in `latitude`/`longitude`
models a missing key, for which `obs.get(..., 0.0)` substitutes `0.0`. -/
structure RawAirNowObs where
  parameterName : String := ""
  dateObserved : AirNowDate := .emptyStr
  aqi : ℤ := 0
  value : ℚ := 0
  unit : String := ""
  latitude : Option ℚ := none
  longitude : Option ℚ := none
  reportingArea : String := ""
  stateCode : String := ""
  siteId : String := ""
  deriving DecidableEq, Repr

/-- The per-observation body of the `for obs in data` loop of
`AirQualityAPIClient.get_airnow_current_observations`; `none` is the
`continue` (unknown pollutant, strptime failure, or pydantic
validation error). -/
def process_airnow_obs (now : ℚ) (obs : RawAirNowObs) : Option AirQualityMeasurement :=
  match convert_pollutant_name obs.parameterName with
  | none => none
  | some pollutant =>
    match obs.dateObserved with
    | .malformed => none
    | _ =>
      let timestamp : ℚ := match obs.dateObserved with
        | .parsed t => t
        | _ => now
      let aqi := obs.aqi
      let category : Option AQICategory :=
        if 0 < aqi then some (determine_aqi_category aqi) else none
      match mkCoordinates (obs.latitude.getD 0) (obs.longitude.getD 0) with
      | none => none
      | some coords =>
        some {
          parameter := pollutant
          value := obs.value
          unit := obs.unit
          last_updated := timestamp
          aqi := if 0 < aqi then some aqi else none
          category := category
          coordinates := coords
          location_name := some obs.reportingArea
          state := some obs.stateCode
          country := "US"
          source := .airnow
          site_id := some obs.siteId
        }

/-- `AirQualityAPIClient.get_airnow_current_observations`, applied to the
JSON array one successful HTTP response carries: each observation is
normalized, failures are skipped. -/
def get_airnow_current_observations (now : ℚ) (data : List RawAirNowObs) :
    List AirQualityMeasurement :=
  data.filterMap (process_airnow_obs now)

/-- A JSON object holding optional `latitude`/`longitude` keys, as used by
OpenAQ v3 payloads.  Python tests the dict for truthiness (non-emptiness);
in the embedding a coordinates dict is truthy iff it carries one of these
two keys, and `{}` (both `none`) is the falsy default of `.get(..., {})`. -/
structure CoordDict where
  latitude : Option ℚ := none
  longitude : Option ℚ := none
  deriving DecidableEq, Repr

/-- Truthiness of a coordinates dict. -/
def CoordDict.truthy (c : CoordDict) : Bool :=
  c.latitude.isSome || c.longitude.isSome

/-- The `location` value of an OpenAQ v3 result: absent, a plain string, or
a nested object.  `result.get("location", {})` turns an absent key into the
empty dict, which the embedding renders as `.dict {}`. -/
structure OpenAQLocationDict where
  coordinates : CoordDict := {}
  name : Option String := none
  label : Option String := none
  city : Option String := none
  state : Option String := none
  region : Option String := none
  deriving DecidableEq, Repr

inductive OpenAQLocation where
  | absent
  | str (s : String)
  | dict (d : OpenAQLocationDict)
  deriving DecidableEq, Repr

/-- The `datetime` resolution of `_parse_openaq_v3_measurement`:
`result.get("datetime") or result.get("date", {}).get("utc")` is either
falsy (timestamp stays `utcnow`), parses to an instant, or raises inside
the inner `try` (timestamp also stays `utcnow`). -/
inductive OpenAQDate where
  | absent
  | bad
  | ok (t : ℚ)
  deriving DecidableEq, Repr

/-- One raw JSON result of the OpenAQ v3 `/measurements` endpoint, with the
fields read by `_parse_openaq_v3_measurement`. -/
structure RawOpenAQResult where
  value : Option ℚ := none
  unit : String := ""
  coordinates : CoordDict := {}
  location : OpenAQLocation := .absent
  topLatitude : Option ℚ := none
  topLongitude : Option ℚ := none
  date : OpenAQDate := .absent
  location_id : Option String := none
  locationId : Option String := none
  id : Option String := none
  deriving DecidableEq, Repr

/-- Python `x or y` on two optional strings (`""` and `None` are falsy). -/
def pyOrStr (x y : Option String) : Option String :=
  match x with
  | some s => if s = "" then y else some s
  | none => y

/-- `AirQualityAPIClient._parse_openaq_v3_measurement`.  `none` is a `return
None` or an exception swallowed by the enclosing `try` (a string-typed
`location` together with a falsy `coordinates` dict raises
`AttributeError`; out-of-range coordinates raise a pydantic
`ValidationError`). -/
def parse_openaq_v3_measurement (now : ℚ) (parameter : String) (r : RawOpenAQResult) :
    Option AirQualityMeasurement :=
  match convert_pollutant_name parameter with
  | none => none
  | some pollutant =>
    match r.value with
    | none => none
    | some value =>
      let step1 : Option CoordDict :=
        if r.coordinates.truthy then some r.coordinates
        else
          match r.location with
          | .absent => some r.coordinates
          | .str _ => none
          | .dict d => some d.coordinates
      match step1 with
      | none => none
      | some cd0 =>
        let cd : CoordDict :=
          if cd0.truthy then cd0
          else
            match r.topLatitude, r.topLongitude with
            | some lat, some lon => { latitude := some lat, longitude := some lon }
            | _, _ => cd0
        if ¬cd.truthy ∨ cd.latitude = none then none
        else
          match mkCoordinates (cd.latitude.getD 0) (cd.longitude.getD 0) with
          | none => none
          | some coords =>
            if coords.latitude = 0 ∧ coords.longitude = 0 then none
            else
              let timestamp : ℚ := match r.date with
                | .ok t => t
                | _ => now
              let location_name : Option String :=
                match r.location with
                | .str s => some s
                | .dict d => some (d.name.getD (d.label.getD ""))
                | .absent => some ""
              let city : Option String :=
                match r.location with
                | .dict d => d.city
                | _ => none
              let state : Option String :=
                match r.location with
                | .dict d => pyOrStr d.state d.region
                | _ => none
              some {
                parameter := pollutant
                value := value
                unit := r.unit
                last_updated := timestamp
                coordinates := coords
                location_name := location_name
                city := city
                state := state
                country := "US"
                source := .openaq
                site_id := some (r.location_id.getD (r.locationId.getD (r.id.getD "")))
              }

/-- `AirQualityAPIClient.get_openaq_measurements`, applied to the successful
`(parameter, results)` responses its parameter loop received in order;
parameters whose request errored, rate-limited or returned no payload
contribute nothing and are omitted from the list. -/
def get_openaq_measurements (now : ℚ) (fetches : List (String × List RawOpenAQResult)) :
    List AirQualityMeasurement :=
  (fetches.map (fun pr =>
    pr.2.filterMap (parse_openaq_v3_measurement now pr.1))).flatten

/-- Python `int(...)` on a rational: truncation toward zero. -/
def pyInt (q : ℚ) : ℤ :=
  if 0 ≤ q then ⌊q⌋ else ⌈q⌉

/-- Python `round(x, 2)`: round half to even at two decimals. -/
def pyRound2 (q : ℚ) : ℚ :=
  let s := q * 100
  let f := ⌊s⌋
  let r := s - f
  let n : ℤ :=
    if r < 1/2 then f
    else if 1/2 < r then f + 1
    else if f % 2 = 0 then f else f + 1
  (n : ℚ) / 100

/-- `random.uniform(a, b)`: the generator draws `t ∈ [0, 1]`; the embedding
takes the draw as an input, clamped into the unit interval. -/
def py_uniform (a b t : ℚ) : ℚ :=
  a + (b - a) * (max 0 (min 1 t))

/-- One entry of `MockDataGenerator.cities`. -/
structure MockCity where
  name : String
  state : String
  lat : ℚ
  lon : ℚ
  deriving DecidableEq, Repr

/-- `MockDataGenerator.cities` (constructor list, in source order). -/
def mock_cities : List MockCity := [
  ⟨"New York", "NY", 40.7128, -74.0060⟩,
  ⟨"Los Angeles", "CA", 34.0522, -118.2437⟩,
  ⟨"Chicago", "IL", 41.8781, -87.6298⟩,
  ⟨"Houston", "TX", 29.7604, -95.3698⟩,
  ⟨"Phoenix", "AZ", 33.4484, -112.0740⟩,
  ⟨"Philadelphia", "PA", 39.9526, -75.1652⟩,
  ⟨"San Antonio", "TX", 29.4241, -98.4936⟩,
  ⟨"San Diego", "CA", 32.7157, -117.1611⟩,
  ⟨"Dallas", "TX", 32.7767, -96.7970⟩,
  ⟨"San Jose", "CA", 37.3382, -121.8863⟩,
  ⟨"Austin", "TX", 30.2672, -97.7431⟩,
  ⟨"Jacksonville", "FL", 30.3322, -81.6557⟩,
  ⟨"Fort Worth", "TX", 32.7555, -97.3308⟩,
  ⟨"Columbus", "OH", 39.9612, -82.9988⟩,
  ⟨"Charlotte", "NC", 35.2271, -80.8431⟩,
  ⟨"San Francisco", "CA", 37.7749, -122.4194⟩,
  ⟨"Indianapolis", "IN", 39.7684, -86.1581⟩,
  ⟨"Seattle", "WA", 47.6062, -122.3321⟩,
  ⟨"Denver", "CO", 39.7392, -104.9903⟩,
  ⟨"Washington", "DC", 38.9072, -77.0369⟩]

/-- `MockDataGenerator.pollutant_ranges`: `(min, max, unit)`; `hcho` has no
entry. -/
def pollutant_ranges : PollutantType → Option (ℚ × ℚ × String)
  | .o3 => some (10, 180, "ppb")
  | .no2 => some (5, 100, "ppb")
  | .pm25 => some (2, 55, "µg/m³")
  | .pm10 => some (5, 150, "µg/m³")
  | .so2 => some (1, 75, "ppb")
  | .co => some (1/10, 15, "ppm")
  | .hcho => none

/-- `MockDataGenerator._calculate_aqi` breakpoints, per pollutant; `hcho`
is absent from the table. -/
def aqi_breakpoints : PollutantType → Option (ℚ × ℚ × ℚ × ℚ × ℚ × ℚ)
  | .o3 => some (0, 54, 70, 85, 105, 200)
  | .no2 => some (0, 53, 100, 360, 649, 1249)
  | .pm25 => some (0, 12, 35.5, 55.5, 150.5, 250.5)
  | .pm10 => some (0, 54, 154, 254, 354, 424)
  | .so2 => some (0, 35, 75, 185, 304, 604)
  | .co => some (0, 4.4, 9.4, 12.4, 15.4, 30.4)
  | .hcho => none

/-- The `for i in range(len(bp) - 1)` loop of `_calculate_aqi`, walking the
buckets `(c_lo, c_hi, aqi_lo, aqi_hi, category)` and interpolating in the
first bucket whose upper concentration bound is not exceeded. -/
def aqi_from_buckets (c : ℚ) : List (ℚ × ℚ × ℤ × ℤ × AQICategory) → ℤ × AQICategory
  | [] => (300, .hazardous)
  | (cLo, cHi, aLo, aHi, cat) :: rest =>
    if c ≤ cHi then
      (pyInt ((((aHi : ℚ) - (aLo : ℚ)) / (cHi - cLo)) * (c - cLo) + (aLo : ℚ)), cat)
    else aqi_from_buckets c rest

/-- `MockDataGenerator._calculate_aqi`. -/
def calculate_aqi (p : PollutantType) (c : ℚ) : ℤ × AQICategory :=
  match aqi_breakpoints p with
  | none => (50, .good)
  | some (b0, b1, b2, b3, b4, b5) =>
    aqi_from_buckets c [
      (b0, b1, 0, 50, .good),
      (b1, b2, 50, 100, .moderate),
      (b2, b3, 100, 150, .unhealthySensitive),
      (b3, b4, 150, 200, .unhealthy),
      (b4, b5, 200, 300, .veryUnhealthy)]

/-- The random draws one iteration of `generate_measurements` consumes.
`random.choice` picks become indices (taken modulo the list length) or the
chosen element itself; `random.uniform`/`random.randint` draws become seeds
mapped into the sampled range. -/
structure MockChoice where
  cityIdx : ℕ := 0
  pollutant : PollutantType := .o3
  concT : ℚ := 0
  hoursT : ℚ := 0
  latT : ℚ := 0
  lonT : ℚ := 0
  sourceAirnow : Bool := false
  monitorNum : ℕ := 0
  siteNum : ℕ := 0
  deriving DecidableEq, Repr

/-- One iteration of the `for _ in range(count)` loop of
`MockDataGenerator.generate_measurements`; `none` is the `continue` taken
when the chosen pollutant has no configured range (`hcho`).  The pydantic
bounds check on `Coordinates` always passes here: every city latitude lies
in `[29.4, 47.7]`, every longitude in `[-122.5, -74]`, and the offsets are
within `±0.1`. -/
def mk_mock_measurement (now : ℚ) (ch : MockChoice) : Option AirQualityMeasurement :=
  let city := mock_cities.getD (ch.cityIdx % mock_cities.length) ⟨"New York", "NY", 40.7128, -74.0060⟩
  match pollutant_ranges ch.pollutant with
  | none => none
  | some (rMin, rMax, unitStr) =>
    let concentration := py_uniform rMin rMax ch.concT
    let ac := calculate_aqi ch.pollutant concentration
    let hoursAgo := py_uniform 0 24 ch.hoursT
    let timestamp := now - hoursAgo * 3600
    let latOffset := py_uniform (-1/10) (1/10) ch.latT
    let lonOffset := py_uniform (-1/10) (1/10) ch.lonT
    let source := if ch.sourceAirnow then DataSource.airnow else DataSource.openaq
    some {
      parameter := ch.pollutant
      value := pyRound2 concentration
      unit := unitStr
      last_updated := timestamp
      aqi := some ac.1
      category := some ac.2
      coordinates := ⟨city.lat + latOffset, city.lon + lonOffset⟩
      location_name := some (city.name ++ " Monitor " ++ toString (1 + ch.monitorNum % 5))
      city := some city.name
      state := some city.state
      country := "US"
      source := source
      site_id := some (source.value ++ "_" ++ toString (1000 + ch.siteNum % 9000))
    }

/-- `MockDataGenerator.generate_measurements`: the loop body runs `count`
times, one `MockChoice` of random draws per iteration (the caller supplies
at least `count` of them; surplus entries are unused). -/
def generate_measurements (now : ℚ) (count : ℕ) (choices : List MockChoice) :
    List AirQualityMeasurement :=
  (choices.take count).filterMap (mk_mock_measurement now)

/-- The deduplication key assembled in `extract_all_data`:
`(lat, lon, parameter, last_updated.isoformat())`.  The ISO string is keyed
as the timestamp itself (`isoformat` is injective on datetimes). -/
def dedup_key (m : AirQualityMeasurement) : ℚ × ℚ × PollutantType × ℚ :=
  (m.coordinates.latitude, m.coordinates.longitude, m.parameter, m.last_updated)

/-- The dedup loop of `extract_all_data` (`seen = set(); for m in ...`),
with the accumulated `seen` set made explicit. -/
def dedup_aux (seen : List (ℚ × ℚ × PollutantType × ℚ)) :
    List AirQualityMeasurement → List AirQualityMeasurement
  | [] => []
  | m :: ms =>
    if dedup_key m ∈ seen then dedup_aux seen ms
    else m :: dedup_aux (dedup_key m :: seen) ms

/-- Deduplication applied by `extract_all_data` to the `openaq` list:
first-seen instance wins. -/
def dedup_measurements (ms : List AirQualityMeasurement) : List AirQualityMeasurement :=
  dedup_aux [] ms

/-- `DataExtractionStatus` pydantic model of `schemas.py`.  Python declares
`active_sources: List[DataSource]` but `extract_all_data` also appends the
plain string `"mock"`, so the embedding stores the `.value` strings. -/
structure DataExtractionStatus where
  last_extraction : Option ℚ := none
  next_extraction : Option ℚ := none
  total_extractions : ℕ := 0
  successful_extractions : ℕ := 0
  failed_extractions : ℕ := 0
  active_sources : List String := []
  last_error : Option String := none
  deriving DecidableEq, Repr

/-- The per-source output dict `all_measurements` of `extract_all_data`. -/
structure SourceOutputs where
  airnow : List AirQualityMeasurement
  openaq : List AirQualityMeasurement
  mock : List AirQualityMeasurement
  deriving DecidableEq, Repr

/-- The `all_measurements["airnow"]` accumulation of `extract_all_data`:
skipped entirely without an AirNow key; otherwise the concatenation of the
four per-region adapter results (`none` = a gather result that is not a
list, contributing nothing). -/
def airnow_output (now : ℚ) (airnowKey : Bool)
    (airnowRegions : List (Option (List RawAirNowObs))) : List AirQualityMeasurement :=
  if airnowKey then
    (airnowRegions.map (fun r =>
      match r with
      | none => []
      | some data => get_airnow_current_observations now data)).flatten
  else []

/-- The `all_measurements["openaq"]` accumulation of `extract_all_data`:
skipped entirely without an OpenAQ key; otherwise the concatenated strategy
results, deduplicated first-seen-wins. -/
def openaq_output (now : ℚ) (openaqKey : Bool)
    (openaqFetches : List (String × List RawOpenAQResult)) : List AirQualityMeasurement :=
  if openaqKey then dedup_measurements (get_openaq_measurements now openaqFetches)
  else []

/-- The `all_measurements["mock"]` fallback branch of `extract_all_data`:
50 generated measurements when the real total is zero, else empty. -/
def mock_output (now : ℚ) (airnowList openaqList : List AirQualityMeasurement)
    (mockChoices : List MockChoice) : List AirQualityMeasurement :=
  if airnowList.length + openaqList.length = 0 then
    generate_measurements now 50 mockChoices
  else []

/-- The `extraction_status` update performed at the end of
`extract_all_data` (the `total_extractions` increment happens at the start
of the run; its net effect over the run is the same). -/
def run_status_after (now : ℚ)
    (airnowList openaqList mockList : List AirQualityMeasurement)
    (status : DataExtractionStatus) : DataExtractionStatus :=
  let status1 := { status with total_extractions := status.total_extractions + 1 }
  let total_extracted := airnowList.length + openaqList.length + mockList.length
  let status2 :=
    if 0 < total_extracted then
      { status1 with
          successful_extractions := status1.successful_extractions + 1
          last_error := none }
    else
      { status1 with
          failed_extractions := status1.failed_extractions + 1
          last_error := some "No data extracted from any source" }
  let active :=
    (if airnowList.isEmpty then [] else ["airnow"])
      ++ (if openaqList.isEmpty then [] else ["openaq"])
      ++ (if mockList.isEmpty then [] else ["mock"])
  { status2 with last_extraction := some now, active_sources := active }

/-- `AirQualityAPIClient.extract_all_data`, the extraction orchestrator.
Inputs stand for what the awaited network calls delivered:
`airnowRegions` holds the four per-region AirNow payloads (`none` = the
HTTP request failed, which `get_airnow_current_observations` swallows,
returning `[]`); `openaqFetches` holds the successful OpenAQ
`(parameter, results)` responses across all eleven strategies, in call
order; `mockChoices` holds the random draws available to the fallback
generator.  The returned pair is `(all_measurements, extraction_status)`
with the status update applied. -/
def extract_all_data (now : ℚ) (airnowKey openaqKey : Bool)
    (airnowRegions : List (Option (List RawAirNowObs)))
    (openaqFetches : List (String × List RawOpenAQResult))
    (mockChoices : List MockChoice)
    (status : DataExtractionStatus) :
    SourceOutputs × DataExtractionStatus :=
  let airnowList := airnow_output now airnowKey airnowRegions
  let openaqList := openaq_output now openaqKey openaqFetches
  let mockList := mock_output now airnowList openaqList mockChoices
  (⟨airnowList, openaqList, mockList⟩,
    run_status_after now airnowList openaqList mockList status)

/-- `PollutantType(value)` construction by enum value, as used by the route
handlers (`ValueError` for an unknown value becomes `none`). -/
def pollutant_type_of_value (s : String) : Option PollutantType :=
  if s = "o3" then some .o3
  else if s = "no2" then some .no2
  else if s = "pm25" then some .pm25
  else if s = "pm10" then some .pm10
  else if s = "so2" then some .so2
  else if s = "co" then some .co
  else if s = "hcho" then some .hcho
  else none

/-- The pollutant-filter block shared verbatim by the three read handlers:
an absent or empty (falsy) query string leaves the list alone; a known
value keeps the matching measurements; an unknown value raises
`ValueError`, caught to return the empty list. -/
def pollutant_route_filter (p : Option String) (ms : List AirQualityMeasurement) :
    List AirQualityMeasurement :=
  match p with
  | none => ms
  | some s =>
    if s = "" then ms
    else
      match pollutant_type_of_value (py_lower s) with
      | some pe => ms.filter (fun m => decide (m.parameter = pe))
      | none => []

/-- The comparator of `sort(key=lambda x: x.last_updated, reverse=True)`:
Python's sort is stable, so it equals a stable insertion sort with this
relation. -/
abbrev timeDesc (a b : AirQualityMeasurement) : Prop :=
  b.last_updated ≤ a.last_updated

instance : IsTotal AirQualityMeasurement timeDesc :=
  ⟨fun a b => le_total b.last_updated a.last_updated⟩

instance : IsTrans AirQualityMeasurement timeDesc :=
  ⟨fun _ _ _ hab hbc => le_trans hbc hab⟩

/-- Squared degree-space distance to the query center: the square of the
sort key `((x.lat - lat)**2 + (x.lon - lon)**2) ** 0.5` of
`get_measurements_by_location`.  Sorting by the key ascending is sorting
by this square ascending, since square root is monotone. -/
def deg_dist_sq (lat lon : ℚ) (m : AirQualityMeasurement) : ℚ :=
  (m.coordinates.latitude - lat) ^ 2 + (m.coordinates.longitude - lon) ^ 2

/-- The comparator of the distance sort of `get_measurements_by_location`. -/
abbrev distAsc (lat lon : ℚ) (a b : AirQualityMeasurement) : Prop :=
  deg_dist_sq lat lon a ≤ deg_dist_sq lat lon b

instance (lat lon : ℚ) : IsTotal AirQualityMeasurement (distAsc lat lon) :=
  ⟨fun a b => le_total (deg_dist_sq lat lon a) (deg_dist_sq lat lon b)⟩

instance (lat lon : ℚ) : IsTrans AirQualityMeasurement (distAsc lat lon) :=
  ⟨fun _ _ _ => le_trans⟩

/-- The bounding-box latitude half-range of `get_measurements_by_location`:
`lat_range = radius_km / 111.0`. -/
def bbox_lat_range (radius_km : ℚ) : ℚ :=
  radius_km / 111

/-- The bounding-box longitude half-range of `get_measurements_by_location`,
exactly as the source evaluates it:
`lon_range = radius_km / (111.0 * abs(latitude * 3.14159 / 180))`. -/
def bbox_lon_range (radius_km latitude : ℚ) : ℚ :=
  radius_km / (111 * |latitude * (3.14159 : ℚ) / 180|)

/-- Squared planar distance in kilometers to the query center, the square
of the code's `distance_km = ((lat_diff * 111)**2 + (lon_diff * 111)**2)**0.5`. -/
def km_dist_sq (lat lon : ℚ) (m : AirQualityMeasurement) : ℚ :=
  (|m.coordinates.latitude - lat| * 111) ^ 2 + (|m.coordinates.longitude - lon| * 111) ^ 2

/-- Route `GET /measurements/by-location`
(`get_measurements_by_location`), applied to the loaded measurement list.
The code's radius check `distance_km <= radius_km` is embedded as the
equivalent squared comparison (FastAPI validates `radius_km ≥ 1`, and for a
nonnegative bound `sqrt s ≤ R ↔ s ≤ R²`).  At `latitude = 0` the Python
handler raises `ZeroDivisionError` (HTTP 500, no measurements returned);
rational division by zero makes `lon_range = 0` here, which likewise
returns essentially nothing — no claim depends on that point. -/
def get_measurements_by_location (ms : List AirQualityMeasurement)
    (latitude longitude radius_km : ℚ) (pollutant : Option String) :
    List AirQualityMeasurement :=
  let lat_range := bbox_lat_range radius_km
  let lon_range := bbox_lon_range radius_km latitude
  let nearby := ms.filter (fun m =>
    let lat_diff := |m.coordinates.latitude - latitude|
    let lon_diff := |m.coordinates.longitude - longitude|
    decide (lat_diff ≤ lat_range) && decide (lon_diff ≤ lon_range) &&
      decide ((lat_diff * 111) ^ 2 + (lon_diff * 111) ^ 2 ≤ radius_km ^ 2))
  let nearby2 := pollutant_route_filter pollutant nearby
  List.insertionSort (distAsc latitude longitude) nearby2

/-- Route `GET /measurements/latest` (`get_latest_measurements`), applied to
the loaded measurement list.  `state_upper = state.upper()`; the state
filter only runs when the state string is truthy **and** the list is still
non-empty. -/
def get_latest_measurements (ms : List AirQualityMeasurement)
    (pollutant state : Option String) (limit : ℕ) : List AirQualityMeasurement :=
  let f1 := pollutant_route_filter pollutant ms
  let f2 :=
    match state with
    | none => f1
    | some s =>
      if s = "" ∨ f1.isEmpty then f1
      else
        f1.filter (fun m =>
          match m.state with
          | some t => decide (t ≠ "") && decide (py_upper t = py_upper s)
          | none => false)
  (List.insertionSort timeDesc f2).take limit

/-- Route `GET /by-location` (`get_measurements_by_city_state`), applied to
the loaded measurement list: substring city match, exact state match,
pollutant filter, then sort descending by `last_updated` and truncate. -/
def get_measurements_by_city_state (ms : List AirQualityMeasurement)
    (city state pollutant : Option String) (limit : ℕ) : List AirQualityMeasurement :=
  let f1 :=
    match city with
    | none => ms
    | some c =>
      if c = "" then ms
      else
        let cl := py_strip (py_lower c)
        ms.filter (fun m =>
          match m.city with
          | some mc => decide (mc ≠ "") && py_in cl (py_lower mc)
          | none => false)
  let f2 :=
    match state with
    | none => f1
    | some s =>
      if s = "" then f1
      else
        f1.filter (fun m =>
          match m.state with
          | some t => decide (t ≠ "") && decide (py_upper t = py_strip (py_upper s))
          | none => false)
  let f3 := pollutant_route_filter pollutant f2
  (List.insertionSort timeDesc f3).take limit

/-- One persisted snapshot artifact as `_load_latest_measurements` sees it:
its filesystem modification instant and its `measurements` array, where
`none` is an entry the per-measurement `try` fails to parse back into an
`AirQualityMeasurement`.  A file whose `json.load` fails contributes no
measurements at all, observationally the same as `entries = []`. -/
structure SnapshotFile where
  mtime : ℚ
  entries : List (Option AirQualityMeasurement)
  deriving DecidableEq, Repr

/-- The comparator of `sorted(json_files, key=mtime, reverse=True)`. -/
abbrev mtimeDesc (a b : SnapshotFile) : Prop :=
  b.mtime ≤ a.mtime

instance : IsTotal SnapshotFile mtimeDesc :=
  ⟨fun a b => le_total b.mtime a.mtime⟩

instance : IsTrans SnapshotFile mtimeDesc :=
  ⟨fun _ _ _ hab hbc => le_trans hbc hab⟩

/-- `_load_latest_measurements` of `routes/air_quality.py`: keep the files
modified within the last two hours of `now`; if there is none, fall back to
the three most recently modified files; return the concatenation of their
parseable measurements. -/
def load_latest_measurements (now : ℚ) (files : List SnapshotFile) :
    List AirQualityMeasurement :=
  let cutoff := now - 2 * 3600
  let recent := files.filter (fun f => decide (cutoff ≤ f.mtime))
  let chosen := if recent.isEmpty then (List.insertionSort mtimeDesc files).take 3 else recent
  (chosen.map (fun f => f.entries.filterMap id)).flatten

/-! ## Concrete fixtures used by witnesses and counterexamples -/

/-- A sample stored measurement. -/
def sample_m : AirQualityMeasurement :=
  { parameter := .pm25, value := 1, unit := "u", last_updated := 0,
    coordinates := ⟨40, -74⟩, source := .airnow }

/-- A measurement at the query center, observed at time 0. -/
def sample_near : AirQualityMeasurement :=
  { sample_m with coordinates := ⟨10, 10⟩, last_updated := 0 }

/-- A measurement ~11 km from the center, observed later (time 100). -/
def sample_far : AirQualityMeasurement :=
  { sample_m with coordinates := ⟨10.1, 10⟩, last_updated := 100, source := .openaq }

/-- A well-formed AirNow observation. -/
def sample_airnow_obs : RawAirNowObs :=
  { parameterName := "ozone", dateObserved := .parsed 0, aqi := 30, value := 1,
    unit := "ppb", latitude := some 40, longitude := some (-74),
    reportingArea := "A", stateCode := "NY", siteId := "s1" }

/-- An AirNow observation whose `Latitude`/`Longitude` keys are missing:
`obs.get` substitutes `0.0` for both. -/
def null_airnow_obs : RawAirNowObs :=
  { parameterName := "ozone", dateObserved := .parsed 0 }

/-- A well-formed OpenAQ v3 result. -/
def sample_openaq_result : RawOpenAQResult :=
  { value := some 5, unit := "µg/m³",
    coordinates := { latitude := some 40, longitude := some (-74) },
    date := .ok 100, locationId := some "7" }

/-- A mock-generator draw whose pollutant has a configured range. -/
def sample_choice : MockChoice := { pollutant := .o3 }

/-- A mock-generator draw choosing `hcho`, which `generate_measurements`
skips (`continue`). -/
def hcho_choice : MockChoice := { pollutant := .hcho }

/-! ## Claims -/

/-- C10: for a positive AQI the category is fixed by the thresholds
(Good iff ≤ 50, Moderate iff 50 < aqi ≤ 100, Unhealthy-for-Sensitive-Groups
iff 100 < aqi ≤ 150, Unhealthy iff 150 < aqi ≤ 200, Very Unhealthy iff
200 < aqi ≤ 300, Hazardous iff 300 < aqi), and an AirNow observation with
`AQI ≤ 0` is stored with `aqi = None` and `category = None`. -/
theorem aqi_category_thresholds (a : ℤ) (now : ℚ) (obs : RawAirNowObs)
    (m : AirQualityMeasurement) :
    (0 < a →
      (determine_aqi_category a = .good ↔ a ≤ 50) ∧
      (determine_aqi_category a = .moderate ↔ 50 < a ∧ a ≤ 100) ∧
      (determine_aqi_category a = .unhealthySensitive ↔ 100 < a ∧ a ≤ 150) ∧
      (determine_aqi_category a = .unhealthy ↔ 150 < a ∧ a ≤ 200) ∧
      (determine_aqi_category a = .veryUnhealthy ↔ 200 < a ∧ a ≤ 300) ∧
      (determine_aqi_category a = .hazardous ↔ 300 < a)) ∧
    (process_airnow_obs now obs = some m → obs.aqi ≤ 0 →
      m.aqi = none ∧ m.category = none) := by
  constructor
  · intro _
    unfold determine_aqi_category
    split_ifs <;> refine ⟨?_, ?_, ?_, ?_, ?_, ?_⟩ <;> simp <;> omega
  · intro h hle
    have hpos : ¬(0 < obs.aqi) := by omega
    unfold process_airnow_obs at h
    rcases hp : convert_pollutant_name obs.parameterName with _ | p <;> rw [hp] at h
    · exact absurd h (by simp)
    · rcases hd : obs.dateObserved with _ | _ | t <;> rw [hd] at h
      · rcases hc : mkCoordinates (obs.latitude.getD 0) (obs.longitude.getD 0) with _ | c <;>
          rw [hc] at h
        · exact absurd h (by simp)
        · simp only [hpos, if_false, Option.some.injEq] at h
          subst h
          simp [hpos]
      · exact absurd h (by simp)
      · rcases hc : mkCoordinates (obs.latitude.getD 0) (obs.longitude.getD 0) with _ | c <;>
          rw [hc] at h
        · exact absurd h (by simp)
        · simp only [hpos, if_false, Option.some.injEq] at h
          subst h
          simp [hpos]

/-- C10 witness: the theorem applied at AQI 30 and at a concrete AirNow
observation carrying `AQI = 0`. -/
theorem aqi_category_thresholds_witness :
    determine_aqi_category 30 = .good ∧
    ∃ m, process_airnow_obs 0 null_airnow_obs = some m ∧
      m.aqi = none ∧ m.category = none := by
  refine ⟨((aqi_category_thresholds 30 0 null_airnow_obs sample_m).1 (by decide)).1.mpr
    (by decide), ?_⟩
  rcases hm : process_airnow_obs 0 null_airnow_obs with _ | m
  · exact absurd hm (by decide)
  · exact ⟨m, rfl, (aqi_category_thresholds 30 0 null_airnow_obs m).2 hm (by decide)⟩

/-- C6, code evaluation at the failing input: at `latitude = 60`,
`radius_km = 111` the source's bounding box computes
`lon_range = 111 / (111 * abs(60 * 3.14159 / 180)) = 300000/314159 ≈ 0.955°`,
whereas the cos-scaled equirectangular formula the spec states,
`radius_km / (111 * cos(latitude))`, yields `111 / (111 * cos 60°) = 2°`;
the two differ, so the code does not evaluate the stated formula.
(The latitude half-range `radius_km / 111` does match the spec.) -/
theorem bbox_lon_range_code_bug :
    bbox_lat_range 111 = 1 ∧
    bbox_lon_range 111 60 = 300000 / 314159 ∧
    (111 : ℝ) / (111 * Real.cos ((60 : ℝ) * Real.pi / 180)) = 2 ∧
    ((300000 / 314159 : ℚ) : ℝ) ≠ 2 := by
  refine ⟨by norm_num [bbox_lat_range], by norm_num [bbox_lon_range, abs], ?_, ?_⟩
  · have h : (60 : ℝ) * Real.pi / 180 = Real.pi / 3 := by ring
    rw [h, Real.cos_pi_div_three]
    norm_num
  · intro h
    have : ((300000 / 314159 : ℚ) : ℝ) < 1 := by
      rw [show ((300000 / 314159 : ℚ) : ℝ) = (300000 : ℝ) / 314159 by push_cast; ring]
      norm_num
    rw [h] at this
    norm_num at this

/-- C8: a pollutant filter string that is not a known enum value yields an
empty result (not an error) on both the latest and the city/state read
handlers, while an absent pollutant filter leaves the measurement list
unfiltered. -/
theorem invalid_pollutant_yields_empty (ms : List AirQualityMeasurement)
    (city st : Option String) (limit : ℕ) (ps : String)
    (hne : ps ≠ "") (hbad : pollutant_type_of_value (py_lower ps) = none) :
    get_latest_measurements ms (some ps) st limit = [] ∧
    get_measurements_by_city_state ms city st (some ps) limit = [] ∧
    pollutant_route_filter none ms = ms := by
  have hfilter : ∀ l : List AirQualityMeasurement,
      pollutant_route_filter (some ps) l = [] := by
    intro l
    simp [pollutant_route_filter, hne, hbad]
  refine ⟨?_, ?_, rfl⟩
  · unfold get_latest_measurements
    simp only [hfilter]
    cases st with
    | none => simp
    | some s => simp
  · unfold get_measurements_by_city_state
    simp only [hfilter]
    simp

/-- C8 witness: the filter string "bogus" on a one-element list. -/
theorem invalid_pollutant_yields_empty_witness :
    get_latest_measurements [sample_m] (some "bogus") none 100 = [] ∧
    get_measurements_by_city_state [sample_m] none none (some "bogus") 100 = [] ∧
    pollutant_route_filter none [sample_m] = [sample_m] :=
  invalid_pollutant_yields_empty [sample_m] none none 100 "bogus" (by decide) (by decide)

lemma dedup_aux_filter_of_mem (k : ℚ × ℚ × PollutantType × ℚ)
    (ms : List AirQualityMeasurement) :
    ∀ seen, k ∈ seen →
      (dedup_aux seen ms).filter (fun m => decide (dedup_key m = k)) = [] := by
  induction ms with
  | nil => intro seen _; simp [dedup_aux]
  | cons m ms ih =>
    intro seen hk
    by_cases hm : dedup_key m ∈ seen
    · simp only [dedup_aux, if_pos hm]
      exact ih seen hk
    · have hne : ¬(dedup_key m = k) := fun h => hm (h ▸ hk)
      simp only [dedup_aux, if_neg hm, List.filter_cons, hne, decide_False,
        Bool.false_eq_true, if_false]
      exact ih _ (List.mem_cons_of_mem _ hk)

lemma dedup_aux_filter_of_not_mem (k : ℚ × ℚ × PollutantType × ℚ)
    (ms : List AirQualityMeasurement) :
    ∀ seen, k ∉ seen →
      (dedup_aux seen ms).filter (fun m => decide (dedup_key m = k)) =
        (ms.find? (fun m => decide (dedup_key m = k))).toList := by
  induction ms with
  | nil => intro seen _; simp [dedup_aux]
  | cons m ms ih =>
    intro seen hk
    by_cases hm : dedup_key m ∈ seen
    · have hne : ¬(dedup_key m = k) := fun h => hk (h ▸ hm)
      simp only [dedup_aux, if_pos hm, List.find?_cons, hne, decide_False]
      exact ih seen hk
    · simp only [dedup_aux, if_neg hm]
      by_cases he : dedup_key m = k
      · subst he
        simp only [List.filter_cons, List.find?_cons, decide_True, if_true]
        rw [dedup_aux_filter_of_mem _ _ _ (List.mem_cons_self _ _)]
        rfl
      · have hk2 : k ∉ dedup_key m :: seen := by
          intro hc
          rcases List.mem_cons.mp hc with h | h
          · exact he h.symm
          · exact hk h
        simp only [List.filter_cons, List.find?_cons, he, decide_False,
          Bool.false_eq_true, if_false]
        exact ih _ hk2

/-- The dedup pass keeps, for each key, exactly the first-seen measurement. -/
lemma dedup_measurements_filter (ms : List AirQualityMeasurement)
    (k : ℚ × ℚ × PollutantType × ℚ) :
    (dedup_measurements ms).filter (fun m => decide (dedup_key m = k)) =
      (ms.find? (fun m => decide (dedup_key m = k))).toList :=
  dedup_aux_filter_of_not_mem k ms [] (by simp)

/-- C2 (amended): deduplication happens only on the `openaq` source — there,
for each key, precisely the first-seen measurement survives — while the
`airnow` output is the unmodified concatenation of the per-region adapter
results, with no dedup pass. -/
theorem dedup_openaq_only_first_seen (now : ℚ)
    (an : List (Option (List RawAirNowObs)))
    (oa : List (String × List RawOpenAQResult))
    (chs : List MockChoice) (st : DataExtractionStatus)
    (k : ℚ × ℚ × PollutantType × ℚ) :
    (extract_all_data now true true an oa chs st).1.openaq.filter
        (fun m => decide (dedup_key m = k)) =
      ((get_openaq_measurements now oa).find?
        (fun m => decide (dedup_key m = k))).toList ∧
    (extract_all_data now true true an oa chs st).1.airnow =
      (an.map (fun r =>
        match r with
        | none => []
        | some d => get_airnow_current_observations now d)).flatten :=
  ⟨dedup_measurements_filter _ _, rfl⟩

/-- C2 counterexample: a run whose AirNow region payload carries the same
observation twice outputs **two** `airnow` Readings with the same dedup key
— deduplication is not applied within the `airnow` source. -/
theorem dedup_airnow_not_applied :
    ((extract_all_data 0 true true [some [sample_airnow_obs, sample_airnow_obs]]
        [] [] {}).1.airnow.filter
      (fun m => decide (dedup_key m = (40, -74, .o3, 0)))).length = 2 := by
  decide

/-- The pollutant-filter block never invents measurements. -/
lemma pollutant_route_filter_sublist (p : Option String)
    (ms : List AirQualityMeasurement) :
    List.Sublist (pollutant_route_filter p ms) ms := by
  unfold pollutant_route_filter
  cases p with
  | none => exact List.Sublist.refl _
  | some s =>
    by_cases hs : s = ""
    · simp only [hs, if_true]
      exact List.Sublist.refl _
    · simp only [hs, if_false]
      cases pollutant_type_of_value (py_lower s) with
      | none => exact List.nil_sublist _
      | some pe => exact List.filter_sublist _

/-- The squared kilometer distance is the squared degree distance scaled by
`111² = 12321`. -/
lemma km_dist_sq_eq (lat lon : ℚ) (m : AirQualityMeasurement) :
    km_dist_sq lat lon m = 12321 * deg_dist_sq lat lon m := by
  unfold km_dist_sq deg_dist_sq
  rw [mul_pow, mul_pow, sq_abs, sq_abs]
  ring

/-- C5: every measurement the proximity handler returns lies within the
requested radius — its squared planar km distance is at most `radius_km²`,
i.e. `distance_km ≤ radius_km` — and the result is ordered by non-decreasing
distance from the center.  (`radius_km ≥ 1` mirrors the route's `ge=1`
validation and makes the squared comparison read as a distance bound.) -/
theorem proximity_within_radius_sorted (ms : List AirQualityMeasurement)
    (latitude longitude radius_km : ℚ) (p : Option String)
    (_hr : 1 ≤ radius_km) :
    (∀ m ∈ get_measurements_by_location ms latitude longitude radius_km p,
      km_dist_sq latitude longitude m ≤ radius_km ^ 2) ∧
    (get_measurements_by_location ms latitude longitude radius_km p).Pairwise
      (fun a b => km_dist_sq latitude longitude a ≤ km_dist_sq latitude longitude b) := by
  constructor
  · intro m hm
    unfold get_measurements_by_location at hm
    have h1 := (List.perm_insertionSort (distAsc latitude longitude) _).mem_iff.mp hm
    have h2 := (pollutant_route_filter_sublist p _).subset h1
    have h3 := (List.mem_filter.mp h2).2
    simp only [Bool.and_eq_true, decide_eq_true_eq] at h3
    exact h3.2
  · unfold get_measurements_by_location
    refine List.Pairwise.imp ?_ (List.sorted_insertionSort (distAsc latitude longitude) _)
    intro a b hab
    rw [km_dist_sq_eq, km_dist_sq_eq]
    exact mul_le_mul_of_nonneg_left hab (by norm_num)

/-- C5 witness: the handler at center (10, 10), radius 50 km over two
concrete measurements. -/
theorem proximity_within_radius_sorted_witness :
    km_dist_sq 10 10 sample_near ≤ 50 ^ 2 ∧
    (get_measurements_by_location [sample_near, sample_far] 10 10 50 none).Pairwise
      (fun a b => km_dist_sq 10 10 a ≤ km_dist_sq 10 10 b) := by
  constructor
  · apply (proximity_within_radius_sorted [sample_near, sample_far] 10 10 50 none
      (by norm_num)).1
    unfold get_measurements_by_location
    rw [(List.perm_insertionSort _ _).mem_iff]
    show sample_near ∈ List.filter _ _
    refine List.mem_filter.mpr ⟨List.mem_cons_self _ _, ?_⟩
    simp only [Bool.and_eq_true, decide_eq_true_eq]
    have hlon : (0 : ℚ) ≤ bbox_lon_range 50 10 := by
      unfold bbox_lon_range
      positivity
    refine ⟨⟨?_, ?_⟩, ?_⟩
    · norm_num [sample_near, sample_m, bbox_lat_range]
    · simpa [sample_near, sample_m] using hlon
    · norm_num [sample_near, sample_m]
  · exact (proximity_within_radius_sorted [sample_near, sample_far] 10 10 50 none
      (by norm_num)).2

/-- C9 (amended): the latest and the city/state handlers sort by
`last_updated` descending before truncating to the requested limit — the
result has length at most `limit` and non-increasing timestamps — while the
by-location proximity handler instead sorts by ascending distance from the
center and applies no limit. -/
theorem read_sort_and_limit (ms : List AirQualityMeasurement)
    (p st city : Option String) (limit : ℕ) (lat lon radius : ℚ) :
    ((get_latest_measurements ms p st limit).length ≤ limit ∧
     (get_latest_measurements ms p st limit).Pairwise timeDesc) ∧
    ((get_measurements_by_city_state ms city st p limit).length ≤ limit ∧
     (get_measurements_by_city_state ms city st p limit).Pairwise timeDesc) ∧
    (get_measurements_by_location ms lat lon radius p).Pairwise (distAsc lat lon) := by
  refine ⟨⟨?_, ?_⟩, ⟨?_, ?_⟩, ?_⟩
  · exact List.length_take_le _ _
  · exact List.Pairwise.sublist (List.take_sublist _ _)
      (List.sorted_insertionSort timeDesc _)
  · exact List.length_take_le _ _
  · exact List.Pairwise.sublist (List.take_sublist _ _)
      (List.sorted_insertionSort timeDesc _)
  · exact List.sorted_insertionSort (distAsc lat lon) _

/-- C9 counterexample: the by-location handler returns a nearer-but-older
measurement before a farther-but-newer one — timestamps `[0, 100]` — so it
does **not** sort by `observed_at` descending (it sorts by distance and has
no limit parameter at all). -/
theorem read_sort_and_limit_counterexample :
    get_measurements_by_location [sample_far, sample_near] 10 10 50 none =
      [sample_near, sample_far] ∧
    sample_near.last_updated = 0 ∧ sample_far.last_updated = 100 ∧
    ¬(get_measurements_by_location [sample_far, sample_near] 10 10 50 none).Pairwise
        timeDesc := by
  have hlon : (0 : ℚ) ≤ bbox_lon_range 50 10 := by
    unfold bbox_lon_range
    positivity
  have habs : |(1 : ℚ) / 10| = 1 / 10 := abs_of_pos (by norm_num)
  have hfilter : List.filter (fun m =>
      decide (|m.coordinates.latitude - 10| ≤ bbox_lat_range 50) &&
        decide (|m.coordinates.longitude - 10| ≤ bbox_lon_range 50 10) &&
        decide ((|m.coordinates.latitude - 10| * 111) ^ 2 +
          (|m.coordinates.longitude - 10| * 111) ^ 2 ≤ 50 ^ 2))
      [sample_far, sample_near] = [sample_far, sample_near] := by
    refine List.filter_eq_self.mpr ?_
    intro m hm
    simp only [Bool.and_eq_true, decide_eq_true_eq]
    rcases List.mem_cons.mp hm with h | h
    · subst h
      refine ⟨⟨?_, ?_⟩, ?_⟩
      · norm_num [sample_far, sample_m, bbox_lat_range, habs]
      · simpa [sample_far, sample_m] using hlon
      · norm_num [sample_far, sample_m, habs]
    · have h' : m = sample_near := by simpa using h
      subst h'
      refine ⟨⟨?_, ?_⟩, ?_⟩
      · norm_num [sample_near, sample_m, bbox_lat_range]
      · simpa [sample_near, sample_m] using hlon
      · norm_num [sample_near, sample_m]
  have hres : get_measurements_by_location [sample_far, sample_near] 10 10 50 none =
      [sample_near, sample_far] := by
    simp only [get_measurements_by_location]
    rw [hfilter]
    show List.insertionSort (distAsc 10 10) [sample_far, sample_near] = _
    rw [show List.insertionSort (distAsc 10 10) [sample_far, sample_near] =
      List.orderedInsert (distAsc 10 10) sample_far [sample_near] from rfl]
    unfold List.orderedInsert
    rw [if_neg (show ¬distAsc 10 10 sample_far sample_near by
      norm_num [distAsc, deg_dist_sq, sample_far, sample_near, sample_m])]
    rfl
  refine ⟨hres, rfl, rfl, ?_⟩
  rw [hres]
  intro h
  have h2 := (List.pairwise_cons.mp h).1 sample_far (by simp)
  simp only [timeDesc, sample_far, sample_near, sample_m] at h2
  norm_num at h2

/-- C4 (amended): when some artifact lies within the two-hour freshness
window, every returned measurement comes from such an artifact; when none
does, the result is exactly the concatenated parseable measurements of the
up-to-three most recently created artifacts (regardless of age), which are
artifacts of the store and whose modification times dominate all remaining
artifacts; and the result is non-empty provided at least one artifact
exists and every artifact contributes at least one parseable measurement
(as artifacts written by `save_data_to_json` do — it skips empty source
lists). -/
theorem load_recent_window_fallback (now : ℚ) (files : List SnapshotFile) :
    ((∃ f ∈ files, now - 2 * 3600 ≤ f.mtime) →
      ∀ m ∈ load_latest_measurements now files,
        ∃ f ∈ files, now - 2 * 3600 ≤ f.mtime ∧ some m ∈ f.entries) ∧
    ((∀ f ∈ files, ¬(now - 2 * 3600 ≤ f.mtime)) →
      load_latest_measurements now files =
        (((List.insertionSort mtimeDesc files).take 3).map
          (fun f => f.entries.filterMap id)).flatten ∧
      (∀ f ∈ (List.insertionSort mtimeDesc files).take 3, f ∈ files) ∧
      (∀ f ∈ (List.insertionSort mtimeDesc files).take 3,
        ∀ g ∈ (List.insertionSort mtimeDesc files).drop 3, g.mtime ≤ f.mtime)) ∧
    (files ≠ [] → (∀ f ∈ files, f.entries.filterMap id ≠ []) →
      load_latest_measurements now files ≠ []) := by
  refine ⟨?_, ?_, ?_⟩
  · intro hfresh m hm
    simp only [load_latest_measurements] at hm
    have hne : ¬(files.filter (fun f => decide (now - 2 * 3600 ≤ f.mtime))).isEmpty := by
      rcases hfresh with ⟨f, hf, hfr⟩
      have : f ∈ files.filter (fun f => decide (now - 2 * 3600 ≤ f.mtime)) :=
        List.mem_filter.mpr ⟨hf, by simpa using hfr⟩
      intro he
      rw [List.isEmpty_iff] at he
      rw [he] at this
      exact absurd this (List.not_mem_nil _)
    rw [if_neg hne] at hm
    rcases List.mem_flatten.mp hm with ⟨l, hl, hml⟩
    rcases List.mem_map.mp hl with ⟨f, hf, rfl⟩
    have hf2 := List.mem_filter.mp hf
    refine ⟨f, hf2.1, by simpa using hf2.2, ?_⟩
    rcases List.mem_filterMap.mp hml with ⟨o, ho, hom⟩
    cases o with
    | none => exact absurd hom (by simp)
    | some x =>
      have : x = m := by simpa using hom
      subst this
      exact ho
  · intro hstale
    have hempty : (files.filter (fun f => decide (now - 2 * 3600 ≤ f.mtime))).isEmpty := by
      rw [List.isEmpty_iff, List.filter_eq_nil_iff]
      intro f hf
      simpa using hstale f hf
    have hp : (List.insertionSort mtimeDesc files).Pairwise mtimeDesc :=
      List.sorted_insertionSort mtimeDesc files
    refine ⟨?_, ?_, ?_⟩
    · simp only [load_latest_measurements]
      rw [if_pos hempty]
    · intro f hf
      exact (List.perm_insertionSort mtimeDesc files).subset
        ((List.take_sublist _ _).subset hf)
    · intro f hf g hg
      rw [← List.take_append_drop 3 (List.insertionSort mtimeDesc files)] at hp
      exact (List.pairwise_append.mp hp).2.2 f hf g hg
  · intro hne hall
    simp only [load_latest_measurements]
    by_cases he : (files.filter (fun f => decide (now - 2 * 3600 ≤ f.mtime))).isEmpty
    · rw [if_pos he]
      intro hflat
      rw [List.flatten_eq_nil_iff] at hflat
      rcases files with _ | ⟨f0, fs⟩
      · exact hne rfl
      · have hlen : (List.insertionSort mtimeDesc (f0 :: fs)).length = fs.length + 1 :=
          (List.perm_insertionSort mtimeDesc _).length_eq
        rcases hs : List.insertionSort mtimeDesc (f0 :: fs) with _ | ⟨g0, gs⟩
        · rw [hs] at hlen
          exact absurd hlen (by simp)
        · have hg0 : g0 ∈ (f0 :: fs) := by
            refine (List.perm_insertionSort mtimeDesc (f0 :: fs)).subset ?_
            rw [hs]
            exact List.mem_cons_self _ _
          have : g0.entries.filterMap id = [] := by
            refine hflat _ ?_
            rw [hs]
            refine List.mem_map.mpr ⟨g0, ?_, rfl⟩
            simp [List.take_cons]
          exact hall g0 hg0 this
    · rw [if_neg he]
      intro hflat
      rw [List.flatten_eq_nil_iff] at hflat
      rcases hr : files.filter (fun f => decide (now - 2 * 3600 ≤ f.mtime)) with _ | ⟨r0, rs⟩
      · rw [List.isEmpty_iff] at he
        exact he hr
      · have hr0 : r0 ∈ files := (List.mem_filter.mp (hr ▸ List.mem_cons_self r0 rs)).1
        have : r0.entries.filterMap id = [] := by
          refine hflat _ ?_
          rw [hr]
          exact List.mem_map.mpr ⟨r0, List.mem_cons_self _ _, rfl⟩
        exact hall r0 hr0 this

/-- C4 counterexample: one stale artifact that parses but carries no
measurements — `load_recent` selects it via the three-most-recent fallback
yet returns the empty list, although a parseable artifact exists. -/
theorem load_recent_counterexample :
    load_latest_measurements 1000000 [⟨0, []⟩] = [] ∧
    ([⟨0, []⟩] : List SnapshotFile) ≠ [] ∧
    ¬(1000000 - 2 * 3600 ≤ (0 : ℚ)) := by
  refine ⟨?_, by simp, by norm_num⟩
  simp only [load_latest_measurements]
  rw [if_pos]
  · rfl
  · rw [List.isEmpty_iff, List.filter_eq_nil_iff]
    intro f hf
    have : f = (⟨0, []⟩ : SnapshotFile) := by simpa using hf
    subst this
    simp only [decide_eq_true_eq]
    norm_num

/-- C4 witness: the theorem applied to a fresh store (fresh case) and to an
all-stale store (fallback case). -/
theorem load_recent_window_fallback_witness :
    load_latest_measurements 1000 [⟨500, [some sample_m]⟩] = [sample_m] ∧
    load_latest_measurements 1000000 [⟨0, [some sample_m]⟩] = [sample_m] ∧
    load_latest_measurements 1000000 [⟨0, [some sample_m]⟩] ≠ [] := by
  have hd1 : ((1000 : ℚ) - 2 * 3600 ≤ 500) := by norm_num
  have hd2 : ¬((1000000 : ℚ) - 2 * 3600 ≤ 0) := by norm_num
  have hall : ∀ f ∈ ([⟨0, [some sample_m]⟩] : List SnapshotFile),
      f.entries.filterMap id ≠ [] := by
    intro f hf
    have hfe : f = (⟨0, [some sample_m]⟩ : SnapshotFile) := List.mem_singleton.mp hf
    subst hfe
    simp
  refine ⟨?_, ?_,
    (load_recent_window_fallback 1000000 [⟨0, [some sample_m]⟩]).2.2 (by simp) hall⟩
  · simp only [load_latest_measurements]
    rw [show List.filter (fun f => decide ((1000 : ℚ) - 2 * 3600 ≤ f.mtime))
          ([⟨500, [some sample_m]⟩] : List SnapshotFile) = [⟨500, [some sample_m]⟩] from
      List.filter_eq_self.mpr (by
        intro f hf
        have hfe : f = (⟨500, [some sample_m]⟩ : SnapshotFile) := List.mem_singleton.mp hf
        subst hfe
        simpa using hd1)]
    rfl
  · simp only [load_latest_measurements]
    rw [show List.filter (fun f => decide ((1000000 : ℚ) - 2 * 3600 ≤ f.mtime))
          ([⟨0, [some sample_m]⟩] : List SnapshotFile) = [] from
      List.filter_eq_nil_iff.mpr (by
        intro f hf
        have hfe : f = (⟨0, [some sample_m]⟩ : SnapshotFile) := List.mem_singleton.mp hf
        subst hfe
        simpa using hd2)]
    rfl

/-- Every measurement the mock generator emits is tagged with one of the
two **real** sources — `random.choice([DataSource.OPENAQ, DataSource.AIRNOW])`
— never with a synthetic-specific tag (the `DataSource` enum has none). -/
lemma mk_mock_measurement_source (now : ℚ) (ch : MockChoice)
    (m : AirQualityMeasurement) (h : mk_mock_measurement now ch = some m) :
    m.source = .airnow ∨ m.source = .openaq := by
  unfold mk_mock_measurement at h
  rcases hr : pollutant_ranges ch.pollutant with _ | ⟨rMin, rMax, unitStr⟩ <;>
    rw [hr] at h
  · exact absurd h (by simp)
  · simp only [Option.some.injEq] at h
    subst h
    cases hsa : ch.sourceAirnow <;> simp [hsa]

/-- Characterization of the end-of-run status update. -/
lemma run_status_after_spec (now : ℚ)
    (a o mk : List AirQualityMeasurement) (st : DataExtractionStatus) :
    (run_status_after now a o mk st).total_extractions = st.total_extractions + 1 ∧
    (run_status_after now a o mk st).last_extraction = some now ∧
    (0 < a.length + o.length + mk.length →
      (run_status_after now a o mk st).successful_extractions =
        st.successful_extractions + 1 ∧
      (run_status_after now a o mk st).failed_extractions = st.failed_extractions ∧
      (run_status_after now a o mk st).last_error = none) ∧
    (a.length + o.length + mk.length = 0 →
      (run_status_after now a o mk st).failed_extractions = st.failed_extractions + 1 ∧
      (run_status_after now a o mk st).successful_extractions =
        st.successful_extractions ∧
      (run_status_after now a o mk st).last_error =
        some "No data extracted from any source") ∧
    (∀ s, s ∈ (run_status_after now a o mk st).active_sources ↔
      (s = "airnow" ∧ a ≠ []) ∨ (s = "openaq" ∧ o ≠ []) ∨ (s = "mock" ∧ mk ≠ [])) := by
  unfold run_status_after
  by_cases hc : 0 < a.length + o.length + mk.length
  · simp only [if_pos hc]
    refine ⟨by trivial, by trivial, fun _ => ⟨by trivial, by trivial, by trivial⟩,
      fun h0 => absurd h0 (by omega), ?_⟩
    intro s
    by_cases ha : a = [] <;> by_cases ho : o = [] <;> by_cases hmk : mk = [] <;>
      simp [ha, ho, hmk, List.isEmpty_iff, or_comm, and_comm]
  · simp only [if_neg hc]
    refine ⟨by trivial, by trivial, fun h0 => absurd h0 hc,
      fun _ => ⟨by trivial, by trivial, by trivial⟩, ?_⟩
    intro s
    by_cases ha : a = [] <;> by_cases ho : o = [] <;> by_cases hmk : mk = [] <;>
      simp [ha, ho, hmk, List.isEmpty_iff, or_comm, and_comm]

/-- C7: at the end of a run `total_extractions` grows by exactly one,
`last_extraction` is set to now, `successful_extractions` grows and
`last_error` clears when the total output (synthetic fallback included) is
positive — otherwise `failed_extractions` grows and `last_error` is set —
and `active_sources` is exactly the set of sources with non-empty output. -/
theorem extraction_status_update (now : ℚ) (ak ok : Bool)
    (an : List (Option (List RawAirNowObs)))
    (oa : List (String × List RawOpenAQResult))
    (chs : List MockChoice) (st : DataExtractionStatus) :
    (extract_all_data now ak ok an oa chs st).2.total_extractions =
      st.total_extractions + 1 ∧
    (extract_all_data now ak ok an oa chs st).2.last_extraction = some now ∧
    (0 < (extract_all_data now ak ok an oa chs st).1.airnow.length +
        (extract_all_data now ak ok an oa chs st).1.openaq.length +
        (extract_all_data now ak ok an oa chs st).1.mock.length →
      (extract_all_data now ak ok an oa chs st).2.successful_extractions =
        st.successful_extractions + 1 ∧
      (extract_all_data now ak ok an oa chs st).2.failed_extractions =
        st.failed_extractions ∧
      (extract_all_data now ak ok an oa chs st).2.last_error = none) ∧
    ((extract_all_data now ak ok an oa chs st).1.airnow.length +
        (extract_all_data now ak ok an oa chs st).1.openaq.length +
        (extract_all_data now ak ok an oa chs st).1.mock.length = 0 →
      (extract_all_data now ak ok an oa chs st).2.failed_extractions =
        st.failed_extractions + 1 ∧
      (extract_all_data now ak ok an oa chs st).2.successful_extractions =
        st.successful_extractions ∧
      (extract_all_data now ak ok an oa chs st).2.last_error =
        some "No data extracted from any source") ∧
    (∀ s, s ∈ (extract_all_data now ak ok an oa chs st).2.active_sources ↔
      (s = "airnow" ∧ (extract_all_data now ak ok an oa chs st).1.airnow ≠ []) ∨
      (s = "openaq" ∧ (extract_all_data now ak ok an oa chs st).1.openaq ≠ []) ∨
      (s = "mock" ∧ (extract_all_data now ak ok an oa chs st).1.mock ≠ [])) :=
  run_status_after_spec now (airnow_output now ak an) (openaq_output now ok oa)
    (mock_output now (airnow_output now ak an) (openaq_output now ok oa) chs) st

/-- C7 witness: a successful run (one mock measurement generated) and a
failed run (no data at all, `hcho`-only draws). -/
theorem extraction_status_update_witness :
    (extract_all_data 0 true true [] [] [sample_choice] {}).2.total_extractions = 1 ∧
    (extract_all_data 0 true true [] [] [sample_choice] {}).2.successful_extractions = 1 ∧
    (extract_all_data 0 true true [] [] [sample_choice] {}).2.last_error = none ∧
    (extract_all_data 0 true true [] [] [hcho_choice] {}).2.failed_extractions = 1 ∧
    (extract_all_data 0 true true [] [] [hcho_choice] {}).2.last_error =
      some "No data extracted from any source" ∧
    ("mock" ∈ (extract_all_data 0 true true [] [] [sample_choice] {}).2.active_sources ↔
      (extract_all_data 0 true true [] [] [sample_choice] {}).1.mock ≠ []) := by
  have hgood := extraction_status_update 0 true true [] [] [sample_choice] {}
  have hbad := extraction_status_update 0 true true [] [] [hcho_choice] {}
  have hmk : ∃ m, mk_mock_measurement 0 sample_choice = some m := by
    unfold mk_mock_measurement
    rw [show pollutant_ranges sample_choice.pollutant = some (10, 180, "ppb") from rfl]
    exact ⟨_, rfl⟩
  have hlen : (extract_all_data 0 true true [] [] [sample_choice] {}).1.mock.length = 1 := by
    rcases hmk with ⟨m, hm⟩
    show (mock_output 0 (airnow_output 0 true []) (openaq_output 0 true [])
      [sample_choice]).length = 1
    rw [show mock_output 0 (airnow_output 0 true []) (openaq_output 0 true [])
        [sample_choice] = generate_measurements 0 50 [sample_choice] from rfl]
    unfold generate_measurements
    rw [show List.take 50 [sample_choice] = [sample_choice] from rfl]
    simp [List.filterMap_cons, hm]
  have hlen0 : (extract_all_data 0 true true [] [] [hcho_choice] {}).1.mock.length = 0 := by
    rfl
  have hsum : 0 < (extract_all_data 0 true true [] [] [sample_choice] {}).1.airnow.length +
      (extract_all_data 0 true true [] [] [sample_choice] {}).1.openaq.length +
      (extract_all_data 0 true true [] [] [sample_choice] {}).1.mock.length := by
    rw [hlen]
    omega
  have hsum0 : (extract_all_data 0 true true [] [] [hcho_choice] {}).1.airnow.length +
      (extract_all_data 0 true true [] [] [hcho_choice] {}).1.openaq.length +
      (extract_all_data 0 true true [] [] [hcho_choice] {}).1.mock.length = 0 := by
    rw [hlen0]
    rfl
  refine ⟨hgood.1, (hgood.2.2.1 hsum).1, (hgood.2.2.1 hsum).2.2,
    (hbad.2.2.2.1 hsum0).1, (hbad.2.2.2.1 hsum0).2.2, ?_⟩
  rw [hgood.2.2.2.2 "mock"]
  simp

/-- C1 (amended): when, after fetching and dedup, both real sources are
empty, the run fills the `mock` key with `generate_measurements(50)` — a
bounded batch of at most 50 Readings, each tagged with a **randomly chosen
real source** (`airnow` or `openaq`, the `DataSource` enum has no
synthetic member) and stored under the `mock` key — and whenever that
batch is non-empty the set of active sources is exactly `{mock}` (the
batch is empty exactly when every sampled pollutant lacks a configured
range, i.e. is `hcho`); if any real source contributed at least one
Reading, the mock list is left empty. -/
theorem synthetic_fallback_policy (now : ℚ) (ak ok : Bool)
    (an : List (Option (List RawAirNowObs)))
    (oa : List (String × List RawOpenAQResult))
    (chs : List MockChoice) (st : DataExtractionStatus) :
    ((extract_all_data now ak ok an oa chs st).1.airnow = [] ∧
     (extract_all_data now ak ok an oa chs st).1.openaq = [] →
      (extract_all_data now ak ok an oa chs st).1.mock =
        generate_measurements now 50 chs ∧
      (extract_all_data now ak ok an oa chs st).1.mock.length ≤ 50 ∧
      (∀ m ∈ (extract_all_data now ak ok an oa chs st).1.mock,
        m.source = .airnow ∨ m.source = .openaq) ∧
      ((extract_all_data now ak ok an oa chs st).1.mock ≠ [] →
        (extract_all_data now ak ok an oa chs st).2.active_sources = ["mock"])) ∧
    ((extract_all_data now ak ok an oa chs st).1.airnow ≠ [] ∨
     (extract_all_data now ak ok an oa chs st).1.openaq ≠ [] →
      (extract_all_data now ak ok an oa chs st).1.mock = []) := by
  constructor
  · rintro ⟨h1, h2⟩
    have ha : airnow_output now ak an = [] := h1
    have ho : openaq_output now ok oa = [] := h2
    have hmock : (extract_all_data now ak ok an oa chs st).1.mock =
        generate_measurements now 50 chs := by
      show mock_output now (airnow_output now ak an) (openaq_output now ok oa) chs = _
      rw [ha, ho]
      rfl
    refine ⟨hmock, ?_, ?_, ?_⟩
    · rw [hmock]
      unfold generate_measurements
      exact le_trans (List.length_filterMap_le _ _) (List.length_take_le _ _)
    · intro m hm
      rw [hmock] at hm
      unfold generate_measurements at hm
      rcases List.mem_filterMap.mp hm with ⟨ch, _, hch⟩
      exact mk_mock_measurement_source now ch m hch
    · intro hne
      show (run_status_after now (airnow_output now ak an) (openaq_output now ok oa)
        (mock_output now (airnow_output now ak an) (openaq_output now ok oa) chs)
        st).active_sources = ["mock"]
      unfold run_status_after
      have hne2 : mock_output now [] [] chs ≠ [] := by
        have hx : mock_output now (airnow_output now ak an)
            (openaq_output now ok oa) chs ≠ [] := hne
        rwa [ha, ho] at hx
      by_cases hc : 0 < (airnow_output now ak an).length + (openaq_output now ok oa).length +
          (mock_output now (airnow_output now ak an) (openaq_output now ok oa) chs).length <;>
        simp [hc, ha, ho, hne2, List.isEmpty_iff]
  · intro h
    have hne : (airnow_output now ak an).length + (openaq_output now ok oa).length ≠ 0 := by
      rcases h with h | h
      · have : airnow_output now ak an ≠ [] := h
        intro hc
        exact this (List.length_eq_zero.mp (by omega))
      · have : openaq_output now ok oa ≠ [] := h
        intro hc
        exact this (List.length_eq_zero.mp (by omega))
    show mock_output now (airnow_output now ak an) (openaq_output now ok oa) chs = []
    unfold mock_output
    rw [if_neg hne]

/-- C1 counterexample: in a run with zero real data the fallback batch is
non-empty and stored under the `mock` key, but its single Reading is tagged
`source = openaq` — a real source, not a synthetic one (the `DataSource`
enum has no synthetic member), refuting "each tagged source = synthetic". -/
theorem synthetic_fallback_counterexample :
    (extract_all_data 0 true true [] [] [sample_choice] {}).1.airnow = [] ∧
    (extract_all_data 0 true true [] [] [sample_choice] {}).1.openaq = [] ∧
    (extract_all_data 0 true true [] [] [sample_choice] {}).1.mock.map
      (fun m => m.source) = [DataSource.openaq] := by
  refine ⟨rfl, rfl, ?_⟩
  show (mock_output 0 (airnow_output 0 true []) (openaq_output 0 true [])
    [sample_choice]).map (fun m => m.source) = [DataSource.openaq]
  rw [show mock_output 0 (airnow_output 0 true []) (openaq_output 0 true [])
      [sample_choice] = generate_measurements 0 50 [sample_choice] from rfl]
  unfold generate_measurements
  rw [show List.take 50 [sample_choice] = [sample_choice] from rfl]
  have hmk : ∃ m, mk_mock_measurement 0 sample_choice = some m ∧
      m.source = DataSource.openaq := by
    unfold mk_mock_measurement
    rw [show pollutant_ranges sample_choice.pollutant = some (10, 180, "ppb") from rfl]
    exact ⟨_, rfl, rfl⟩
  rcases hmk with ⟨m, hm, hsrc⟩
  simp [List.filterMap_cons, hm, hsrc]

/-- C1 witness: the amended theorem applied to an empty-data run (fallback
fires, one openaq-tagged mock Reading, active sources = {mock}) and to a
run with real AirNow data (mock stays empty). -/
theorem synthetic_fallback_policy_witness :
    (extract_all_data 0 true true [] [] [sample_choice] {}).1.mock =
      generate_measurements 0 50 [sample_choice] ∧
    (extract_all_data 0 true true [] [] [sample_choice] {}).1.mock.length ≤ 50 ∧
    (extract_all_data 0 true true [] [] [sample_choice] {}).2.active_sources = ["mock"] ∧
    (extract_all_data 0 true true [some [sample_airnow_obs]] [] [sample_choice]
      {}).1.mock = [] := by
  have hempty := (synthetic_fallback_policy 0 true true [] [] [sample_choice] {}).1
    ⟨rfl, rfl⟩
  have hne : (extract_all_data 0 true true [] [] [sample_choice] {}).1.mock ≠ [] := by
    have hmk : ∃ m, mk_mock_measurement 0 sample_choice = some m := by
      unfold mk_mock_measurement
      rw [show pollutant_ranges sample_choice.pollutant = some (10, 180, "ppb") from rfl]
      exact ⟨_, rfl⟩
    rcases hmk with ⟨m, hm⟩
    rw [hempty.1]
    unfold generate_measurements
    rw [show List.take 50 [sample_choice] = [sample_choice] from rfl]
    simp [List.filterMap_cons, hm]
  have hreal := (synthetic_fallback_policy 0 true true [some [sample_airnow_obs]] []
    [sample_choice] {}).2
  exact ⟨hempty.1, hempty.2.1, hempty.2.2.2 hne, hreal (Or.inl (by decide))⟩

/-- The measurement produced by a successful OpenAQ parse, used as a
concrete witness input. -/
def sample_openaq_parsed : AirQualityMeasurement :=
  { parameter := .pm25, value := 5, unit := "µg/m³", last_updated := 100,
    coordinates := ⟨40, -74⟩, location_name := some "",
    source := .openaq, site_id := some "7" }

/-- C3 (amended): the null-point check lives in the **OpenAQ** adapter —
`_parse_openaq_v3_measurement` never returns a measurement whose resolved
coordinates are `(0, 0)` — whereas the AirNow adapter performs no such
check (see the counterexample: it defaults missing coordinates to `0.0`
and stores the Reading). -/
theorem openaq_discards_null_coordinates (now : ℚ) (param : String)
    (r : RawOpenAQResult) (m : AirQualityMeasurement)
    (h : parse_openaq_v3_measurement now param r = some m) :
    ¬(m.coordinates.latitude = 0 ∧ m.coordinates.longitude = 0) := by
  simp only [parse_openaq_v3_measurement] at h
  repeat' split at h
  all_goals
    first
      | exact Option.noConfusion h
      | (simp only [Option.some.injEq] at h
         subst h
         intro hc
         exact absurd hc (by assumption))

/-- C3 counterexample: an AirNow observation with missing
`Latitude`/`Longitude` keys resolves to the null point `(0, 0)` and is
**kept** in the adapter's output list — the claim's "discarded at the
adapter boundary, never appears in any per-source output" fails for the
AirNow source. -/
theorem airnow_keeps_null_coordinates :
    (get_airnow_current_observations 0 [null_airnow_obs]).map
      (fun m => (m.coordinates.latitude, m.coordinates.longitude)) = [(0, 0)] := by
  decide

/-- C3 witness: a concrete successful OpenAQ parse whose coordinates the
theorem certifies as non-null. -/
theorem openaq_discards_null_coordinates_witness :
    parse_openaq_v3_measurement 0 "pm25" sample_openaq_result =
      some sample_openaq_parsed ∧
    ¬(sample_openaq_parsed.coordinates.latitude = 0 ∧
      sample_openaq_parsed.coordinates.longitude = 0) :=
  ⟨by decide, openaq_discards_null_coordinates 0 "pm25" sample_openaq_result
    sample_openaq_parsed (by decide)⟩
